import Mathlib

/-!
Verification development for the EmoHeal music-therapy study front end
(`qm_final_v7`).  The JavaScript sources are shallowly embedded: pure
functions become Lean functions, DOM/localStorage mutation becomes explicit
state passing, `setTimeout` and `setInterval` schedules become explicit
timelines of events with their firing offsets in milliseconds, and network
calls are parametrised by an explicit outcome.
-/

namespace EmoHeal

/-! ## JavaScript-object helpers

A JS object used as a string map is embedded as an association list; `jsGet`
is property lookup (`undefined` becomes `none`) and `jsAssign` is the
override semantics of a spread `{...o, k: v}`. -/

/-- Property read `o[k]` on a JS object holding string values. -/
def jsGet : List (String × String) → String → Option String
  | [], _ => none
  | (k2, v) :: rest, k => if k = k2 then some v else jsGet rest k

/-- The object `{...o, k: v}`: every binding of `o` except `k`, then `k ↦ v`. -/
def jsAssign (o : List (String × String)) (k v : String) : List (String × String) :=
  o.filter (fun p => p.1 ≠ k) ++ [(k, v)]

/-- JS truthiness of a possibly-absent string property, as used by `!!x`:
`undefined` and the empty string are falsy. -/
def jsTruthy : Option String → Bool
  | none => false
  | some s => s ≠ ""

/-- `Array.prototype.indexOf`, which returns `-1` when the element is absent. -/
def jsIndexOfAux : Nat → List String → String → Int
  | _, [], _ => -1
  | i, x :: rest, s => if x = s then (i : Int) else jsIndexOfAux (i + 1) rest s

/-- `l.indexOf s` with JS semantics (`-1` for a missing element). -/
def jsIndexOf (l : List String) (s : String) : Int :=
  jsIndexOfAux 0 l s

/-! ## StudyFlowManager: step order and navigation (part_000) -/

/-- The six-entry `stepOrder` array of `canProceedToStep` and
`updateProgressIndicators`. -/
def stepOrder : List String :=
  ["portal", "participant_info", "consent_form", "therapy", "questionnaire", "thank_you"]

/-- `canProceedToStep(targetStep)`: the target's index in `stepOrder` is at
most the current index plus one. -/
def canProceedToStep (currentStep targetStep : String) : Bool :=
  decide (jsIndexOf stepOrder targetStep ≤ jsIndexOf stepOrder currentStep + 1)

/-- The mutable state of `StudyFlowManager` relevant to step navigation:
the in-memory `this.currentStep` and the `localStorage` entry
`qmul_study_step` (`none` when the key is absent). -/
structure FlowState where
  currentStep : String
  storedStep : Option String
deriving DecidableEq, Repr

/-- `setCurrentStep(step)`: writes both the field and the localStorage key. -/
def setCurrentStep (_st : FlowState) (step : String) : FlowState :=
  { currentStep := step, storedStep := some step }

/-- The `pageMap` object of `navigateToPage`. -/
def pageMap (step : String) : Option String :=
  if step = "portal" then some "experiment_portal.html"
  else if step = "participant_info" then some "participant_info.html"
  else if step = "consent_form" then some "consent_form.html"
  else if step = "therapy" then some "therapy_interface_bilingual.html?from=experiment"
  else if step = "questionnaire" then some "questionnaire.html"
  else if step = "thank_you" then some "thank_you.html"
  else none

/-- `proceedToStep(targetStep)`: returns the JS return value, the state after
the call, and the page navigated to (`navigateToPage` assigns
`window.location.href` only when `pageMap` has the step). -/
def proceedToStep (st : FlowState) (targetStep : String) :
    Bool × FlowState × Option String :=
  if canProceedToStep st.currentStep targetStep then
    (true, setCurrentStep st targetStep, pageMap targetStep)
  else
    (false, st, none)

/-- The `stepMap` object of `getNextStep(formType)`. -/
def getNextStep (formType : String) : Option String :=
  if formType = "participant_info" then some "consent_form"
  else if formType = "consent" then some "therapy"
  else if formType = "questionnaire" then some "thank_you"
  else none

/-! ## StudyFlowManager: form validation and consent gating (part_000) -/

/-- The parts of a `form[data-study-form]` element that `validateForm` and
`updateConsentStatus` read: the values of its `[required]` fields, its
`data-study-form` attribute, and the checked states of its
`.consent-checkbox` elements. -/
structure StudyForm where
  requiredValues : List String
  studyForm : String
  consentChecks : List Bool
deriving DecidableEq, Repr

/-- `validateForm(form)`: `isValid` starts `true`, is cleared when any
required field's trimmed value is empty, and — for a form whose
`data-study-form` is `consent` — when not every `.consent-checkbox` is
checked. -/
def validateForm (f : StudyForm) : Bool :=
  (f.requiredValues.all fun v => !(v.trim = "")) &&
  (if f.studyForm = "consent" then f.consentChecks.all (fun b => b) else true)

/-- `updateConsentStatus()`: the `disabled` value written to the
`.consent-submit` button (`none` when no such button exists on the page);
the code sets `submitButton.disabled = !allChecked`. -/
def updateConsentStatus (consentChecks : List Bool) (submitButtonPresent : Bool) :
    Option Bool :=
  if submitButtonPresent then some (!(consentChecks.all fun b => b)) else none

/-! ## StudyFlowManager: participant data, saving and export (part_000) -/

/-- Form data collected by `collectFormData`, as a string map (array-valued
entries of multi-checkbox fields are treated as opaque strings). -/
abbrev FormData := List (String × String)

/-- The `therapyData` object: `{}` initially, or
`{completed, timestamp, sessionId}` after `integrateWithTherapySystem`.
`completed` embeds JS truthiness of the property (`undefined` is falsy). -/
structure TherapyData where
  completed : Bool
  timestamp : Option String
  sessionId : Option String
deriving DecidableEq, Repr

/-- The `participantData` object of `StudyFlowManager`. -/
structure ParticipantData where
  sessionId : String
  startTime : String
  endTime : Option String
  participantInfo : FormData
  consentData : FormData
  therapyData : TherapyData
  questionnaireData : FormData
  completed : Bool
deriving DecidableEq, Repr

/-- Side effects of `saveFormData`: the `localStorage` write performed by
`saveParticipantData()` (carrying the data written) and the
`setTimeout(() => this.submitDataToServer(), 1000)` registration. -/
inductive SaveEffect where
  | persistData (pd : ParticipantData)
  | scheduleSubmit (delayMs : Nat)
deriving DecidableEq, Repr

/-- `saveFormData(formType, formData)`:  the switch updates one section of
`participantData` (the consent and questionnaire branches stamp the form
data with `timestamp: new Date().toISOString()`, and the questionnaire
branch also sets `completed` and `endTime` and schedules
`submitDataToServer` after 1000 ms); `saveParticipantData()` then persists
the updated object.  `now` stands for `new Date().toISOString()`. -/
def saveFormData (pd : ParticipantData) (formType : String) (formData : FormData)
    (now : String) : ParticipantData × List SaveEffect :=
  if formType = "participant_info" then
    let pd1 := { pd with participantInfo := formData }
    (pd1, [SaveEffect.persistData pd1])
  else if formType = "consent" then
    let pd1 := { pd with consentData := jsAssign formData "timestamp" now }
    (pd1, [SaveEffect.persistData pd1])
  else if formType = "questionnaire" then
    let pd1 := { pd with
      questionnaireData := jsAssign formData "timestamp" now,
      completed := true,
      endTime := some now }
    (pd1, [SaveEffect.scheduleSubmit 1000, SaveEffect.persistData pd1])
  else
    (pd, [SaveEffect.persistData pd])

/-- The `browserInfo` object read from `navigator` by `prepareExportData`. -/
structure BrowserInfo where
  userAgent : String
  language : String
  platform : String
deriving DecidableEq, Repr

/-- The anonymised `participantInfo` projection of the export: only
`ageGroup`, `gender` and `digitalHealthExperience` are taken over. -/
structure ExportedParticipantInfo where
  ageGroup : Option String
  gender : Option String
  digitalHealthExperience : Option String
deriving DecidableEq, Repr

/-- The object built by `prepareExportData`. -/
structure ExportData where
  sessionId : String
  startTime : String
  endTime : Option String
  completed : Bool
  participantInfo : ExportedParticipantInfo
  consentGiven : Bool
  consentTimestamp : Option String
  therapyCompleted : Bool
  therapyTimestamp : Option String
  questionnaireData : FormData
  studyVersion : String
  browserInfo : BrowserInfo
deriving DecidableEq, Repr

/-- `prepareExportData()`: anonymises `participantData` before export. -/
def prepareExportData (pd : ParticipantData) (b : BrowserInfo) : ExportData :=
  { sessionId := pd.sessionId
    startTime := pd.startTime
    endTime := pd.endTime
    completed := pd.completed
    participantInfo :=
      { ageGroup := jsGet pd.participantInfo "ageGroup"
        gender := jsGet pd.participantInfo "gender"
        digitalHealthExperience := jsGet pd.participantInfo "digitalHealthExperience" }
    consentGiven := jsTruthy (jsGet pd.consentData "timestamp")
    consentTimestamp := jsGet pd.consentData "timestamp"
    therapyCompleted := pd.therapyData.completed
    therapyTimestamp := pd.therapyData.timestamp
    questionnaireData := pd.questionnaireData
    studyVersion := "v1.0"
    browserInfo := b }

/-- The abort timeout installed around the `/submit` fetch,
`setTimeout(() => controller.abort(), 15000)`. -/
def submitTimeoutMs : Nat := 15000

/-- Outcome of the `fetch` in `submitDataToServer`: a response with
`response.ok`, a response with another HTTP status, or an abort by the
15-second timeout / a network failure (both land in the `catch`). -/
inductive FetchOutcome where
  | ok
  | httpError (status : Nat)
  | aborted
deriving DecidableEq, Repr

/-- `submitDataToServer()`: POSTs `prepareExportData()` to
`API_BASE + "/submit"`, returns `true` on an ok response and `false` from
the `catch` otherwise.  `store` is the browser's `localStorage` content;
the function never writes to it, so it is returned unchanged.  The result
is `(return value, request URL, request payload, localStorage after)`. -/
def submitDataToServer (apiBase : String) (pd : ParticipantData) (b : BrowserInfo)
    (store : List (String × String)) (outcome : FetchOutcome) :
    Bool × String × ExportData × List (String × String) :=
  let url := apiBase ++ "/submit"
  let payload := prepareExportData pd b
  match outcome with
  | FetchOutcome.ok => (true, url, payload, store)
  | FetchOutcome.httpError _ => (false, url, payload, store)
  | FetchOutcome.aborted => (false, url, payload, store)

/-! ## Therapy interface: polling loop (part_003 and frontend/study_flow.js)

`setInterval` registrations are modelled as a registry of interval records;
`clearInterval` removes a record by id.  The only interval whose tick issues
a fetch of the `session_status` endpoint is the one registered by
`startPolling`. -/

/-- What an interval's callback does on each tick. -/
inductive TickAct where
  | fetchSessionStatus
  | otherAct (tag : String)
deriving DecidableEq, Repr

/-- A registered `setInterval` timer: its id, its period in milliseconds and
its tick action. -/
structure IntervalRec where
  id : Nat
  periodMs : Nat
  act : TickAct
deriving DecidableEq, Repr

/-- An interval that polls the `session_status` endpoint. -/
def isPollingInterval (r : IntervalRec) : Bool :=
  r.act == TickAct.fetchSessionStatus

/-- `clearInterval(i)` guarded by `if (pollingIntervalId)`: a `null` id
clears nothing, otherwise the interval with that id is deregistered. -/
def clearIntervalJs (reg : List IntervalRec) : Option Nat → List IntervalRec
  | none => reg
  | some i => reg.filter fun r => r.id ≠ i

/-- `startPolling()` (identical structure in part_003 lines 139-161 and
frontend/study_flow.js lines 229-239): first
`if (pollingIntervalId) clearInterval(pollingIntervalId)`, then
`pollingIntervalId = setInterval(<fetch session_status>, 2000)`.
`newId` is the fresh timer id returned by `setInterval`; the result is the
interval registry and the new `pollingIntervalId`. -/
def startPolling (reg : List IntervalRec) (pollingIntervalId : Option Nat)
    (newId : Nat) : List IntervalRec × Option Nat :=
  let reg1 := clearIntervalJs reg pollingIntervalId
  (reg1 ++ [⟨newId, 2000, TickAct.fetchSessionStatus⟩], some newId)

/-! ## Therapy interface: `handleState` UI sequencer (part_003 and
frontend/study_flow.js)

`handleState(data)` is embedded as the timeline of the events it causes:
each entry is `(t, e)` where `t` is the firing offset in milliseconds from
the call (computed by summing the nested `setTimeout`/`setInterval` delays
in the source) and `e` the event.  `restartPolling` marks the scheduled
re-invocation of `startPolling`; `anim` entries are the DOM/CSS animation
steps, tagged. -/

/-- An event caused by `handleState`. -/
inductive UIEvent where
  | clearPolling
  | restartPolling
  | switchStage (stage : String)
  | anim (tag : String)
deriving DecidableEq, Repr

/-- Timeline of `handleState(data)` in part_003 (therapy interface V13) by
`data.status`.  Offsets: AC_COMPLETE restarts polling at 3500 + 4000;
KG_COMPLETE at 13000; ISO_PRINCIPLE_READY at 11000 (also switching to the
synthesis stage there); VIDEO_READY never restarts polling. -/
def handleStateV13 (status : String) : List (Nat × UIEvent) :=
  if status = "AC_COMPLETE" then
    [(0, UIEvent.clearPolling),
     (0, UIEvent.switchStage "step-emotion-analysis"),
     (0, UIEvent.anim "analysis_text_1"),
     (1200, UIEvent.anim "analysis_text_2"),
     (2400, UIEvent.anim "analysis_text_3"),
     (3500, UIEvent.anim "radar_build"),
     (7000, UIEvent.anim "emotion_reveal"),
     (7500, UIEvent.restartPolling)]
  else if status = "KG_COMPLETE" then
    [(0, UIEvent.clearPolling),
     (0, UIEvent.switchStage "step-kg-result"),
     (0, UIEvent.anim "gems_mapping"),
     (4000, UIEvent.anim "kg_extraction"),
     (8000, UIEvent.anim "prescription_render"),
     (13000, UIEvent.restartPolling)]
  else if status = "ISO_PRINCIPLE_READY" then
    [(0, UIEvent.clearPolling),
     (0, UIEvent.switchStage "step-iso-principle"),
     (0, UIEvent.anim "iso_reset"),
     (500, UIEvent.anim "iso_step1"),
     (4500, UIEvent.anim "iso_step2_wave"),
     (5100, UIEvent.anim "iso_step2_text"),
     (8500, UIEvent.anim "iso_step3_start"),
     (9100, UIEvent.anim "iso_step3_text"),
     (10500, UIEvent.anim "iso_exit"),
     (11000, UIEvent.switchStage "step-synthesis"),
     (11000, UIEvent.restartPolling)]
  else if status = "VIDEO_READY" then
    [(0, UIEvent.clearPolling),
     (0, UIEvent.anim "video_setup"),
     (0, UIEvent.switchStage "step-video-player"),
     (0, UIEvent.anim "prelude_text"),
     (100, UIEvent.anim "overlay_visible"),
     (3500, UIEvent.anim "overlay_fade_in_audio")]
  else []

/-- Timeline of `handleState(data)` in frontend/study_flow.js (mock-backend
V2) by `data.status`.  Offsets: AC_COMPLETE restarts polling at
3500 + 3000 + 5000 = 11500; KG_COMPLETE at 13500; ISO_PRINCIPLE_READY at
12500; VIDEO_READY never restarts polling. -/
def handleStateV2 (status : String) : List (Nat × UIEvent) :=
  if status = "AC_COMPLETE" then
    [(0, UIEvent.clearPolling),
     (0, UIEvent.switchStage "step-emotion-analysis"),
     (0, UIEvent.anim "analysis_text_1"),
     (1200, UIEvent.anim "analysis_text_2"),
     (2400, UIEvent.anim "analysis_text_3"),
     (3500, UIEvent.anim "radar_build"),
     (7000, UIEvent.anim "emotion_reveal"),
     (11500, UIEvent.restartPolling)]
  else if status = "KG_COMPLETE" then
    [(0, UIEvent.clearPolling),
     (0, UIEvent.switchStage "step-kg-result"),
     (500, UIEvent.anim "gems_mapping"),
     (4000, UIEvent.anim "kg_extraction"),
     (10000, UIEvent.anim "prescription_render"),
     (13500, UIEvent.restartPolling)]
  else if status = "ISO_PRINCIPLE_READY" then
    [(0, UIEvent.clearPolling),
     (0, UIEvent.anim "iso_reset"),
     (0, UIEvent.switchStage "step-iso-principle"),
     (500, UIEvent.anim "iso_step1"),
     (4500, UIEvent.anim "iso_step2_wave"),
     (5100, UIEvent.anim "iso_step2_text"),
     (8500, UIEvent.anim "iso_step3_start"),
     (9100, UIEvent.anim "iso_step3_text"),
     (10500, UIEvent.anim "iso_exit"),
     (12500, UIEvent.restartPolling)]
  else if status = "VIDEO_READY" then
    [(0, UIEvent.clearPolling),
     (0, UIEvent.anim "video_setup"),
     (0, UIEvent.switchStage "step-video-player"),
     (0, UIEvent.anim "prelude_text"),
     (100, UIEvent.anim "overlay_visible"),
     (3500, UIEvent.anim "overlay_fade_in_audio")]
  else []

/-- The firing times of the scheduled `startPolling` re-invocations in a
`handleState` timeline. -/
def pollRestartTimes (evs : List (Nat × UIEvent)) : List Nat :=
  (evs.filter fun e => e.2 == UIEvent.restartPolling).map fun e => e.1

/-- The timeline first clears the polling interval, restarts polling exactly
once at a fixed positive delay `d`, and every event of the timeline fires no
later than `d` (so polling is inactive while the stage's animation sequence
is still scheduled). -/
def clearsThenDelaysPolling (evs : List (Nat × UIEvent)) (d : Nat) : Bool :=
  (evs.head? == some (0, UIEvent.clearPolling)) &&
  (pollRestartTimes evs == [d]) &&
  decide (0 < d) &&
  (evs.all fun e => decide (e.1 ≤ d))

/-- The timeline first clears the polling interval and never restarts it. -/
def clearsAndStopsPolling (evs : List (Nat × UIEvent)) : Bool :=
  (evs.head? == some (0, UIEvent.clearPolling)) &&
  (pollRestartTimes evs == [])

/-! ## Mock backend API (frontend/study_flow.js and part_005) -/

/-- The `_mockDatabase` object: session id to its `step` counter. -/
abbrev MockDb := List (String × Nat)

/-- Property read on the mock database. -/
def dbGet : MockDb → String → Option Nat
  | [], _ => none
  | (k2, v) :: rest, k => if k = k2 then some v else dbGet rest k

/-- Property write on the mock database (update in place, or add). -/
def dbSet : MockDb → String → Nat → MockDb
  | [], k, v => [(k, v)]
  | (k2, v2) :: rest, k, v =>
      if k = k2 then (k, v) :: rest else (k2, v2) :: dbSet rest k v

/-- `mockApi.create_session(text)`: stores `{step: 0}` under a fresh session
id and returns that id (`sid` stands for `"mock-session-" + Date.now()`). -/
def create_session (db : MockDb) (sid : String) : MockDb × String :=
  (dbSet db sid 0, sid)

/-- The `switch (currentState.step)` of `mockApi.session_status`. -/
def mockStatusForStep (step : Nat) : String :=
  if step = 1 then "AC_COMPLETE"
  else if step = 2 then "KG_COMPLETE"
  else if step = 3 then "ISO_PRINCIPLE_READY"
  else if step = 4 then "VIDEO_READY"
  else "PENDING"

/-- `mockApi.session_status(sessionId)`: an unknown id answers `ERROR`
without touching the database; otherwise the session's step is incremented
and the status for the new step is returned. -/
def session_status (db : MockDb) (sid : String) : MockDb × String :=
  match dbGet db sid with
  | none => (db, "ERROR")
  | some step => (dbSet db sid (step + 1), mockStatusForStep (step + 1))

/-- The database after `n` calls to `session_status` for `sid`. -/
def statusCalls (db : MockDb) (sid : String) : Nat → MockDb
  | 0 => db
  | n + 1 => (session_status (statusCalls db sid n) sid).1

/-! ## `fadeAudio` (part_003 lines 91-108, frontend/study_flow.js lines
154-182)

Both files run the same algorithm: `volumeStep = (endVolume - startVolume) /
(duration / 50)`; every 50 ms the volume moves by `volumeStep`, and the tick
that would reach or pass `endVolume` instead writes `endVolume` exactly and
clears the interval.  Volumes are embedded as rationals. -/

/-- The state of the fading media element: its `volume` and whether the fade
interval is still registered. -/
structure FadeState where
  volume : ℚ
  active : Bool
deriving DecidableEq, Repr

/-- `volumeStep`: `(endVolume - startVolume) / (duration / intervalTime)`
with `intervalTime = 50`. -/
def fadeStep (startVolume endVolume duration : ℚ) : ℚ :=
  (endVolume - startVolume) / (duration / 50)

/-- One tick of the fade interval: add `volumeStep`; if that reaches or
passes `endVolume` (in the direction of the step) write `endVolume` and
clear the interval.  A cleared interval no longer ticks. -/
def fadeTick (endVolume volumeStep : ℚ) (st : FadeState) : FadeState :=
  if st.active then
    let newVolume := st.volume + volumeStep
    if (0 < volumeStep ∧ endVolume ≤ newVolume) ∨
       (volumeStep < 0 ∧ newVolume ≤ endVolume) then
      { volume := endVolume, active := false }
    else
      { volume := newVolume, active := true }
  else st

/-- The fade after `k` ticks, starting from the element's volume with the
interval registered. -/
def fadeRun (startVolume endVolume volumeStep : ℚ) : Nat → FadeState
  | 0 => { volume := startVolume, active := true }
  | k + 1 => fadeTick endVolume volumeStep (fadeRun startVolume endVolume volumeStep k)

/-- `fadeAudio(videoElement, endVolume, duration)`: returns early (no
interval, volume untouched) when the starting volume already equals
`endVolume`, otherwise registers the 50 ms interval with the computed
`volumeStep`. -/
def fadeAudio (startVolume endVolume duration : ℚ) : Option ℚ :=
  if startVolume = endVolume then none
  else some (fadeStep startVolume endVolume duration)

/-! ## i18n string table and `getText` (part_003 lines 3-42)

`getText` forces `lang = 'en'`, so only the `en` table of `langResources` is
ever dereferenced; it is embedded below in source order.  The `zh` table is
unreachable from `getText` and omitted. -/

/-- `langResources.en`. -/
def langResourcesEn : List (String × String) :=
  [("analyzing", "Analyzing..."),
   ("startJourney", "Start Healing Journey"),
   ("input_alert", "Please enter how you feel!"),
   ("unit_bpm", "BPM"),
   ("analysis_step1", "Connecting to emotional neural network..."),
   ("analysis_step2", "Parsing 27-dimensional emotion vectors..."),
   ("analysis_step3", "Constructing your emotional profile..."),
   ("stage_emotion_analysis", "Emotion Decoding"),
   ("comfort_text", "Don\x27t worry, all of your feelings are valid and deserve to be seen."),
   ("emotion_name_admiration", "Admiration"),
   ("emotion_name_adoration", "Adoration"),
   ("emotion_name_aesthetic_appreciation", "Aesthetic Appreciation"),
   ("emotion_name_amusement", "Amusement"),
   ("emotion_name_anger", "Anger"),
   ("emotion_name_anxiety", "Anxiety"),
   ("emotion_name_awe", "Awe"),
   ("emotion_name_embarrassment", "Embarrassment"),
   ("emotion_name_boredom", "Boredom"),
   ("emotion_name_calm", "Calm"),
   ("emotion_name_confusion", "Confusion"),
   ("emotion_name_contempt", "Contempt"),
   ("emotion_name_desire", "Desire"),
   ("emotion_name_disappointment", "Disappointment"),
   ("emotion_name_disgust", "Disgust"),
   ("emotion_name_sympathy", "Sympathy"),
   ("emotion_name_entrancement", "Entrancement"),
   ("emotion_name_jealousy", "Jealousy"),
   ("emotion_name_excitement", "Excitement"),
   ("emotion_name_fear", "Fear"),
   ("emotion_name_guilt", "Guilt"),
   ("emotion_name_horror", "Horror"),
   ("emotion_name_interest", "Interest"),
   ("emotion_name_joy", "Joy"),
   ("emotion_name_nostalgia", "Nostalgia"),
   ("emotion_name_romance", "Romance"),
   ("emotion_name_sadness", "Sadness"),
   ("emotion_name_unknown", "Complex Feelings"),
   ("desc_admiration", "Your words are filled with admiration. Appreciating the strengths of others can also inspire us to become better."),
   ("desc_adoration", "We sense a feeling of adoration, which is a strong and positive connection."),
   ("desc_aesthetic_appreciation", "You demonstrate an appreciation for beauty. Feeling and appreciating beauty is a vital healing force in life."),
   ("desc_amusement", "Your words are full of amusement and fun; a lighthearted mood is the best medicine for stress."),
   ("desc_anger", "We recognize the anger within you. Anger is an emotional alarm, alerting us that something needs attention and understanding."),
   ("desc_anxiety", "We have detected your current anxiety. Remember to take a deep breath, focus on the present moment, and know that this too shall pass."),
   ("desc_awe", "We\x27ve captured a sense of awe. When faced with the vast or magnificent, a feeling of awe naturally arises."),
   ("desc_embarrassment", "You seem to be feeling some embarrassment. This is a normal social emotion that helps us better integrate into groups."),
   ("desc_boredom", "We\x27ve detected a hint of boredom. Perhaps this is a signal prompting you to find new challenges or interests."),
   ("desc_calm", "Your inner world appears to be in a state of calm. May you enjoy this tranquility and harmony."),
   ("desc_confusion", "Your thoughts seem a bit confused. It\x27s okay; let\x27s find a way through this fog together."),
   ("desc_contempt", "We recognize the emotion of contempt, which often stems from complex comparisons and judgments."),
   ("desc_desire", "Your words are filled with desire. Desire is our motivation to act, guiding us toward our goals."),
   ("desc_disappointment", "We sense your disappointment. It\x27s natural to feel this way when reality doesn\x27t meet expectations."),
   ("desc_disgust", "We sense your aversion to something. This is a strong signal that helps us establish our boundaries."),
   ("desc_sympathy", "Your words show great sympathy. The ability to empathize with others\x27 feelings is a precious quality."),
   ("desc_entrancement", "You seem to be in a state of entrancement; focus is a gateway to the inner world."),
   ("desc_jealousy", "We\x27ve captured the emotion of jealousy. It often points to what we deeply desire in our hearts."),
   ("desc_excitement", "We sense the excitement and thrill within you; anticipating good things is always a pleasure."),
   ("desc_fear", "We have detected a sense of fear. Please remember, feeling fear is normal; what matters is how we face it."),
   ("desc_guilt", "You seem to be troubled by guilt. Guilt reminds us to pay attention to our actions and gives us an opportunity to grow."),
   ("desc_horror", "We have detected an emotion of horror. Please ensure that you are currently in a safe environment."),
   ("desc_interest", "We see your interest in things, which is the beginning of exploration and learning."),
   ("desc_joy", "We\x27ve captured the joy in your heart! May this happiness shine like the sun and brighten your day."),
   ("desc_nostalgia", "A feeling of nostalgia has gently surfaced. Memories of the past, whether sweet or bitter, have shaped who we are today."),
   ("desc_romance", "A sense of romance permeates your words; it is a profound and beautiful emotional experience."),
   ("desc_sadness", "We sense the sadness within you. Please allow yourself to gently experience this emotion; all feelings deserve to be treated with tenderness."),
   ("stage_gems_mapping", "Emotion-Music GEMS Mapping"),
   ("stage_kg_extraction", "Knowledge Graph Extraction"),
   ("prescription_title", "Your Personal Healing Prescription"),
   ("section_title_params", "Musical Prescription Parameters"),
   ("section_title_rationale", "Therapeutic Rationale"),
   ("section_title_practice", "Guided Listening Practice"),
   ("practice_text_default", "It is recommended to use headphones and listen in a quiet environment. Try to focus on the flow of the music, and practice diaphragmatic breathing with a 4-second inhale and 6-second exhale."),
   ("iso_title", "Applying: ISO Principle"),
   ("iso_step1_desc", "Step 1: Matching\nThe AI is applying the ISO principle..."),
   ("iso_step2_desc", "Step 2: Entrainment\nBased on resonance, the music will subtly transform..."),
   ("iso_step3_desc", "ISO principle application complete. Preparing your music..."),
   ("video_main_title", "A Mindful Journey, Just For You"),
   ("video_subtitle_prefix", "Healing Protocol ID"),
   ("video_title_generic", "This Healing Journey, Is Just For You"),
   ("video_title_fallback", "Sound of Healing (Fallback)"),
   ("prelude_text", "Please follow the halo... and breathe deeply..."),
   ("epilogue_text", "Let this peace slowly merge with your breath."),
   ("connection_lost", "Connection to the server was lost. Please refresh and try again."),
   ("protocol_activated_template", "{protocolName} Activated"),
   ("protocol_anxiety_relief_critical", "Deep Anxiety Relief Protocol"),
   ("protocol_anger_release", "Anger Release Protocol"),
   ("protocol_fear_soothing", "Fear Soothing Protocol"),
   ("protocol_calm_maintenance", "Deep Calm Maintenance Protocol"),
   ("protocol_sadness_support", "Sadness Support Protocol"),
   ("protocol_joy_energy", "Joyful Energy Protocol"),
   ("protocol_anxiety_relief_moderate", "Moderate Anxiety Relief Protocol"),
   ("protocol_positive_excitement", "Positive Excitement Protocol"),
   ("protocol_nostalgia_comfort", "Nostalgia Comfort Protocol"),
   ("protocol_interest_sparking", "Interest Sparking Protocol"),
   ("protocol_default", "Basic Emotional Balance Protocol"),
   ("value_major", "Major"),
   ("value_minor", "Minor"),
   ("value_neutral", "Neutral"),
   ("value_loud", "Loud"),
   ("value_soft", "Soft"),
   ("value_medium", "Medium"),
   ("value_consonant", "Consonant"),
   ("value_dissonant", "Dissonant"),
   ("value_mixed", "Mixed"),
   ("value_high", "High"),
   ("value_low", "Low"),
   ("value_dense", "Dense"),
   ("value_sparse", "Sparse"),
   ("value_warm_pad", "Warm Pad"),
   ("value_expressive_strings", "Expressive Strings"),
   ("value_soft_choir", "Soft Choir"),
   ("value_nature_sounds", "Nature Sounds"),
   ("value_gentle_piano", "Gentle Piano"),
   ("value_bright_ensemble", "Bright Ensemble"),
   ("value_ambient_pad", "Ambient Pad"),
   ("value_energetic_mix", "Energetic Mix"),
   ("value_vintage_warmth", "Vintage Warmth"),
   ("value_interesting_textures", "Interesting Textures"),
   ("value_neutral_pad", "Neutral Pad"),
   ("approach_integration", "Utilizing neutral, balanced music to promote emotional integration and self-awareness."),
   ("approach_anxiety_relief", "Employing slow, consonant music to gradually reduce physiological arousal and create a sense of safety."),
   ("approach_anger_release", "Initiating with music that matches the emotional energy to establish a connection, then gradually guiding towards a calmer state."),
   ("approach_sadness_support", "Starting with empathetic music and progressively introducing warm, ascending musical elements to instill a sense of hope."),
   ("approach_positive_maintenance", "Maintaining a positive state while avoiding over-stimulation through stable rhythms and structure.")]

/-- `getText(key)`: `const lang = 'en'` is hard-coded, so the lookup ignores
the page's display language; `resource[key] || key` falls back to the key on
an absent (or empty, hence falsy) entry. -/
def getText (key : String) : String :=
  match jsGet langResourcesEn key with
  | some v => if v = "" then key else v
  | none => key

/-! ## Helper lemmas -/

/-- A successful `jsGet` lookup is a binding of the object. -/
lemma jsGet_mem (o : List (String × String)) (k v : String)
    (h : jsGet o k = some v) : (k, v) ∈ o := by
  induction o with
  | nil => simp [jsGet] at h
  | cons p rest ih =>
    obtain ⟨k2, v2⟩ := p
    by_cases hk : k = k2
    · simp only [jsGet, if_pos hk] at h
      cases h
      subst hk
      exact List.mem_cons_self _ _
    · simp only [jsGet, if_neg hk] at h
      exact List.mem_cons_of_mem _ (ih h)

/-- Reading back a key just written to the mock database. -/
lemma dbGet_dbSet_self (db : MockDb) (k : String) (v : Nat) :
    dbGet (dbSet db k v) k = some v := by
  induction db with
  | nil => simp [dbSet, dbGet]
  | cons p rest ih =>
    obtain ⟨k2, v2⟩ := p
    by_cases h : k = k2
    · simp [dbSet, h, dbGet]
    · simp [dbSet, h, dbGet, ih]

/-- `session_status` on a session whose stored step is `s`. -/
lemma session_status_found (db : MockDb) (sid : String) (s : Nat)
    (h : dbGet db sid = some s) :
    session_status db sid = (dbSet db sid (s + 1), mockStatusForStep (s + 1)) := by
  unfold session_status
  rw [h]

/-- `session_status` on an unknown session id. -/
lemma session_status_missing (db : MockDb) (sid : String)
    (h : dbGet db sid = none) :
    session_status db sid = (db, "ERROR") := by
  unfold session_status
  rw [h]

/-- The step counter after `n` status calls on a session that starts at `s`. -/
lemma dbGet_statusCalls (db : MockDb) (sid : String) (s : Nat)
    (h : dbGet db sid = some s) :
    ∀ n, dbGet (statusCalls db sid n) sid = some (s + n) := by
  intro n
  induction n with
  | zero => simpa [statusCalls] using h
  | succ n ih =>
    show dbGet (session_status (statusCalls db sid n) sid).1 sid = _
    rw [session_status_found _ _ _ ih, dbGet_dbSet_self]
    exact congrArg some (Nat.add_assoc s n 1)

/-! ## C1: the order of the experiment steps -/

/-- C1 counterexample: the claim puts the consent step before the
demographics (participant-information) step, but in `stepOrder` the
participant-information step has index 1 and the consent step index 2, and
`getNextStep` sends the participant-information form to the consent form
(not the other way around): `getNextStep "consent"` is the therapy step. -/
theorem consent_does_not_precede_demographics :
    jsIndexOf stepOrder "participant_info" = 1 ∧
    jsIndexOf stepOrder "consent_form" = 2 ∧
    ¬ jsIndexOf stepOrder "consent_form" < jsIndexOf stepOrder "participant_info" ∧
    getNextStep "participant_info" = some "consent_form" ∧
    ¬ getNextStep "consent" = some "participant_info" := by
  decide

/-- C1 (amended): the six-entry step order is portal, then demographics
(participant-information), then consent, then therapy, then questionnaire,
then the thank-you/data-export step, and `getNextStep` follows the same
succession (participant_info to consent_form, consent to therapy,
questionnaire to thank_you). -/
theorem stepOrder_demographics_then_consent :
    stepOrder = ["portal", "participant_info", "consent_form", "therapy",
                 "questionnaire", "thank_you"] ∧
    jsIndexOf stepOrder "participant_info" < jsIndexOf stepOrder "consent_form" ∧
    jsIndexOf stepOrder "consent_form" < jsIndexOf stepOrder "therapy" ∧
    jsIndexOf stepOrder "therapy" < jsIndexOf stepOrder "questionnaire" ∧
    jsIndexOf stepOrder "questionnaire" < jsIndexOf stepOrder "thank_you" ∧
    getNextStep "participant_info" = some "consent_form" ∧
    getNextStep "consent" = some "therapy" ∧
    getNextStep "questionnaire" = some "thank_you" ∧
    getNextStep "portal" = none ∧
    getNextStep "therapy" = none ∧
    getNextStep "thank_you" = none := by
  decide

/-! ## C4: the UI sequencer runs in lockstep with the polling loop -/

/-- C4: in both `handleState` implementations, each of the three
intermediate statuses first clears the polling interval and schedules
`startPolling` exactly once, at that stage's fixed positive animation delay,
with every event of the stage's timeline firing no later than that delay;
on `VIDEO_READY` the polling interval is cleared and never restarted. -/
theorem handleState_lockstep :
    clearsThenDelaysPolling (handleStateV13 "AC_COMPLETE") 7500 = true ∧
    clearsThenDelaysPolling (handleStateV13 "KG_COMPLETE") 13000 = true ∧
    clearsThenDelaysPolling (handleStateV13 "ISO_PRINCIPLE_READY") 11000 = true ∧
    clearsAndStopsPolling (handleStateV13 "VIDEO_READY") = true ∧
    clearsThenDelaysPolling (handleStateV2 "AC_COMPLETE") 11500 = true ∧
    clearsThenDelaysPolling (handleStateV2 "KG_COMPLETE") 13500 = true ∧
    clearsThenDelaysPolling (handleStateV2 "ISO_PRINCIPLE_READY") 12500 = true ∧
    clearsAndStopsPolling (handleStateV2 "VIDEO_READY") = true := by
  decide

/-! ## C2: the consent form can only be submitted with every box checked -/

/-- C2: `updateConsentStatus` writes `disabled = true` to the consent submit
button exactly when some consent checkbox is unchecked (and `disabled =
false` exactly when all are checked), and `validateForm` rejects a form
whose `data-study-form` is `consent` whenever at least one consent checkbox
is unchecked. -/
theorem consent_gate (checks : List Bool) (f : StudyForm) :
    (updateConsentStatus checks true = some false ↔ ∀ c ∈ checks, c = true) ∧
    (updateConsentStatus checks true = some true ↔ ∃ c ∈ checks, c = false) ∧
    (f.studyForm = "consent" → (∃ c ∈ f.consentChecks, c = false) →
      validateForm f = false) := by
  refine ⟨?_, ?_, ?_⟩
  · simp [updateConsentStatus, List.all_eq_true]
  · simp [updateConsentStatus, List.all_eq_true]
  · intro hform ⟨c, hmem, hval⟩
    have hall : f.consentChecks.all (fun b => b) = false := by
      rcases hb : f.consentChecks.all fun b => b with _ | _
      · rfl
      · rw [List.all_eq_true] at hb
        rw [hb c hmem] at hval
        cases hval
    simp [validateForm, hform, hall]

/-- C2 witness: a consent form with one unchecked box keeps the submit
button disabled and fails validation; checking every box enables it. -/
theorem consent_gate_witness :
    (updateConsentStatus [true, false] true = some true) ∧
    (updateConsentStatus [true, true] true = some false) ∧
    validateForm ⟨["yes"], "consent", [true, false]⟩ = false := by
  refine ⟨?_, ?_, ?_⟩
  · exact (consent_gate [true, false] ⟨[], "", []⟩).2.1.mpr ⟨false, by simp⟩
  · exact (consent_gate [true, true] ⟨[], "", []⟩).1.mpr (by simp)
  · exact (consent_gate [] ⟨["yes"], "consent", [true, false]⟩).2.2 rfl
      ⟨false, by simp⟩

/-! ## C3: `proceedToStep` guard and frame condition -/

/-- C3: `proceedToStep(t)` succeeds (updating both the in-memory
`currentStep` and the stored `qmul_study_step`, and navigating to the
target's page) exactly when the index of `t` in the six-step order is at
most the current step's index plus one; on rejection it returns `false` and
leaves the state unchanged, navigating nowhere. -/
theorem proceedToStep_guard (st : FlowState) (target : String) :
    ((proceedToStep st target).1 = true ↔
        jsIndexOf stepOrder target ≤ jsIndexOf stepOrder st.currentStep + 1) ∧
    ((proceedToStep st target).1 = true →
        (proceedToStep st target).2.1 = setCurrentStep st target ∧
        (proceedToStep st target).2.1.currentStep = target ∧
        (proceedToStep st target).2.1.storedStep = some target ∧
        (proceedToStep st target).2.2 = pageMap target) ∧
    ((proceedToStep st target).1 = false →
        (proceedToStep st target).2.1 = st ∧
        (proceedToStep st target).2.2 = none) := by
  cases hc : canProceedToStep st.currentStep target with
  | false =>
    have hp : ¬ jsIndexOf stepOrder target ≤ jsIndexOf stepOrder st.currentStep + 1 := by
      simpa [canProceedToStep] using hc
    simp [proceedToStep, hc, hp]
  | true =>
    have hp : jsIndexOf stepOrder target ≤ jsIndexOf stepOrder st.currentStep + 1 := by
      simpa [canProceedToStep] using hc
    simp [proceedToStep, hc, hp, setCurrentStep]

/-- C3 witness: from the portal step, jumping ahead to the questionnaire is
rejected and changes neither the in-memory step nor the stored one. -/
theorem proceedToStep_guard_witness :
    (proceedToStep ⟨"portal", none⟩ "questionnaire").1 = false ∧
    (proceedToStep ⟨"portal", none⟩ "questionnaire").2.1 = ⟨"portal", none⟩ ∧
    (proceedToStep ⟨"portal", none⟩ "questionnaire").2.2 = none := by
  have h := proceedToStep_guard ⟨"portal", none⟩ "questionnaire"
  have hb : (proceedToStep ⟨"portal", none⟩ "questionnaire").1 = false := by decide
  exact ⟨hb, (h.2.2 hb).1, (h.2.2 hb).2⟩

/-! ## C5: `startPolling` keeps a single 2000 ms polling interval -/

/-- C5: provided every active polling interval is the one tracked by
`pollingIntervalId` (the invariant the code maintains, since `startPolling`
is the only registrar of such intervals and stores the id it gets), a call
to `startPolling` first clears the old interval and leaves exactly one
polling interval registered: the fresh one, with period 2000 ms, whose tick
fetches the `session_status` endpoint. -/
theorem startPolling_single_interval (reg : List IntervalRec)
    (pid : Option Nat) (newId : Nat)
    (hTracked : ∀ r ∈ reg, isPollingInterval r = true → some r.id = pid) :
    (startPolling reg pid newId).1.filter isPollingInterval
      = [⟨newId, 2000, TickAct.fetchSessionStatus⟩] ∧
    (startPolling reg pid newId).2 = some newId := by
  refine ⟨?_, rfl⟩
  have h1 : (clearIntervalJs reg pid).filter isPollingInterval = [] := by
    rw [List.filter_eq_nil_iff]
    intro r hr hp
    cases pid with
    | none =>
      cases hTracked r hr hp
    | some i =>
      rw [clearIntervalJs] at hr
      rcases List.mem_filter.mp hr with ⟨hmem, hne⟩
      have := hTracked r hmem hp
      rw [Option.some_inj] at this
      rw [this] at hne
      simp at hne
  show ((clearIntervalJs reg pid) ++
      [IntervalRec.mk newId 2000 TickAct.fetchSessionStatus]).filter
      isPollingInterval = _
  rw [List.filter_append, h1]
  rfl

/-- C5 witness: restarting polling over a registry holding the previous
polling interval and an unrelated animation interval leaves exactly the
fresh 2000 ms `session_status` poller. -/
theorem startPolling_single_interval_witness :
    (startPolling [⟨7, 2000, TickAct.fetchSessionStatus⟩, ⟨3, 50, TickAct.otherAct "fade"⟩]
        (some 7) 9).1.filter isPollingInterval
      = [⟨9, 2000, TickAct.fetchSessionStatus⟩] ∧
    (startPolling [⟨7, 2000, TickAct.fetchSessionStatus⟩, ⟨3, 50, TickAct.otherAct "fade"⟩]
        (some 7) 9).2 = some 9 :=
  startPolling_single_interval _ (some 7) 9 (by decide)

/-! ## C6: saving the questionnaire marks completion, persists and submits -/

/-- C6: saving the questionnaire form data sets `completed`, records
`endTime`, persists the updated participant data and schedules the
`/submit` POST 1000 ms later (hence after the persist); the POST goes to
`API_BASE + "/submit"` with the prepared export as payload, and on an HTTP
error or an abort `submitDataToServer` returns `false` with the stored
participant data untouched. -/
theorem questionnaire_save_and_submit (pd : ParticipantData) (formData : FormData)
    (now apiBase : String) (b : BrowserInfo) (store : List (String × String))
    (status : Nat) :
    (saveFormData pd "questionnaire" formData now).1.completed = true ∧
    (saveFormData pd "questionnaire" formData now).1.endTime = some now ∧
    SaveEffect.persistData (saveFormData pd "questionnaire" formData now).1
      ∈ (saveFormData pd "questionnaire" formData now).2 ∧
    SaveEffect.scheduleSubmit 1000 ∈ (saveFormData pd "questionnaire" formData now).2 ∧
    submitDataToServer apiBase (saveFormData pd "questionnaire" formData now).1 b store
        FetchOutcome.ok
      = (true, apiBase ++ "/submit",
         prepareExportData (saveFormData pd "questionnaire" formData now).1 b, store) ∧
    submitDataToServer apiBase (saveFormData pd "questionnaire" formData now).1 b store
        (FetchOutcome.httpError status)
      = (false, apiBase ++ "/submit",
         prepareExportData (saveFormData pd "questionnaire" formData now).1 b, store) ∧
    submitDataToServer apiBase (saveFormData pd "questionnaire" formData now).1 b store
        FetchOutcome.aborted
      = (false, apiBase ++ "/submit",
         prepareExportData (saveFormData pd "questionnaire" formData now).1 b, store) := by
  refine ⟨rfl, rfl, ?_, ?_, rfl, rfl, rfl⟩
  · simp [saveFormData]
  · simp [saveFormData]

/-- C6 witness: a concrete questionnaire save followed by an aborted
submission. -/
theorem questionnaire_save_and_submit_witness :
    (saveFormData ⟨"QMUL_1", "t0", none, [], [], ⟨false, none, none⟩, [], false⟩
        "questionnaire" [("q1", "5")] "t1").1.completed = true ∧
    (saveFormData ⟨"QMUL_1", "t0", none, [], [], ⟨false, none, none⟩, [], false⟩
        "questionnaire" [("q1", "5")] "t1").1.endTime = some "t1" ∧
    submitDataToServer "https://api.example"
        (saveFormData ⟨"QMUL_1", "t0", none, [], [], ⟨false, none, none⟩, [], false⟩
          "questionnaire" [("q1", "5")] "t1").1
        ⟨"ua", "en-GB", "linux"⟩ [("qmul_study_step", "questionnaire")]
        FetchOutcome.aborted
      = (false, "https://api.example" ++ "/submit",
         prepareExportData
           (saveFormData ⟨"QMUL_1", "t0", none, [], [], ⟨false, none, none⟩, [], false⟩
             "questionnaire" [("q1", "5")] "t1").1
           ⟨"ua", "en-GB", "linux"⟩,
         [("qmul_study_step", "questionnaire")]) := by
  have h := questionnaire_save_and_submit
    ⟨"QMUL_1", "t0", none, [], [], ⟨false, none, none⟩, [], false⟩
    [("q1", "5")] "t1" "https://api.example" ⟨"ua", "en-GB", "linux"⟩
    [("qmul_study_step", "questionnaire")] 500
  exact ⟨h.1, h.2.1, h.2.2.2.2.2.2⟩

/-! ## C7: `getText` looks up the English table, falling back to the key -/

set_option maxRecDepth 4000 in
/-- C7: `getText(key)` returns the `langResources.en` entry whenever the key
is in the table (every entry of the table is a nonempty, hence truthy,
string) and the key itself otherwise; the lookup language is hard-coded to
`en`, independent of the page's display language. -/
theorem getText_en_or_key (key v : String) :
    (jsGet langResourcesEn key = some v → getText key = v) ∧
    (jsGet langResourcesEn key = none → getText key = key) := by
  constructor
  · intro h
    have hall : ∀ p ∈ langResourcesEn, p.2 ≠ "" := by decide
    have hv : v ≠ "" := hall (key, v) (jsGet_mem _ _ _ h)
    simp [getText, h, hv]
  · intro h
    simp [getText, h]

/-- C7 witness: a key of the table returns its English entry; an unknown key
returns itself. -/
theorem getText_en_or_key_witness :
    getText "analyzing" = "Analyzing..." ∧
    getText "unknown_key_xyz" = "unknown_key_xyz" := by
  refine ⟨(getText_en_or_key "analyzing" "Analyzing...").1 rfl, ?_⟩
  exact (getText_en_or_key "unknown_key_xyz" "").2 rfl

/-! ## C8: the mock backend is a per-session step machine -/

/-- C8: a session created by `mockApi.create_session` starts at step 0, and
its `n`-th subsequent `session_status` call answers `AC_COMPLETE`,
`KG_COMPLETE`, `ISO_PRINCIPLE_READY`, `VIDEO_READY` for `n` = 1..4 and
`PENDING` for every `n` > 4; a `session_status` call with an unknown id
returns status `ERROR` and leaves the database untouched. -/
theorem mockApi_step_machine (db : MockDb) (sid : String) (n : Nat) :
    dbGet (create_session db sid).1 (create_session db sid).2 = some 0 ∧
    (dbGet db sid = some 0 →
      (session_status (statusCalls db sid n) sid).2 = mockStatusForStep (n + 1)) ∧
    (mockStatusForStep 1 = "AC_COMPLETE" ∧ mockStatusForStep 2 = "KG_COMPLETE" ∧
     mockStatusForStep 3 = "ISO_PRINCIPLE_READY" ∧ mockStatusForStep 4 = "VIDEO_READY") ∧
    (4 < n → mockStatusForStep n = "PENDING") ∧
    (dbGet db sid = none → session_status db sid = (db, "ERROR")) := by
  refine ⟨dbGet_dbSet_self db sid 0, ?_, by decide, ?_, session_status_missing db sid⟩
  · intro h0
    rw [session_status_found _ _ n (by simpa using dbGet_statusCalls db sid 0 h0 n)]
  · intro hn
    have h1 : n ≠ 1 := by omega
    have h2 : n ≠ 2 := by omega
    have h3 : n ≠ 3 := by omega
    have h4 : n ≠ 4 := by omega
    simp [mockStatusForStep, h1, h2, h3, h4]

/-- C8 witness: a freshly created session walks AC_COMPLETE on its first
status call and answers PENDING on the fifth; an unknown id errors without
touching the database. -/
theorem mockApi_step_machine_witness :
    (session_status (statusCalls (dbSet [] "mock-session-1" 0) "mock-session-1" 0)
        "mock-session-1").2 = mockStatusForStep 1 ∧
    mockStatusForStep 5 = "PENDING" ∧
    session_status [("mock-session-1", 2)] "other-session"
      = ([("mock-session-1", 2)], "ERROR") := by
  refine ⟨?_, ?_, ?_⟩
  · exact (mockApi_step_machine (dbSet [] "mock-session-1" 0) "mock-session-1" 0).2.1
      (dbGet_dbSet_self [] "mock-session-1" 0)
  · exact (mockApi_step_machine [] "" 5).2.2.2.1 (by omega)
  · exact (mockApi_step_machine [("mock-session-1", 2)] "other-session" 0).2.2.2.2 rfl

/-! ## C10: the export depends on `participantInfo` only through the three
anonymous fields -/

/-- C10: two participant-data states that agree on the `ageGroup`, `gender`
and `digitalHealthExperience` entries of `participantInfo` (and on every
field outside `participantInfo`) yield identical exports, so no other
`participantInfo` entry — in particular no personally identifiable one —
flows into the export. -/
theorem prepareExportData_noninterference (pd : ParticipantData)
    (info2 : FormData) (b : BrowserInfo)
    (hAge : jsGet info2 "ageGroup" = jsGet pd.participantInfo "ageGroup")
    (hGender : jsGet info2 "gender" = jsGet pd.participantInfo "gender")
    (hDhe : jsGet info2 "digitalHealthExperience"
      = jsGet pd.participantInfo "digitalHealthExperience") :
    prepareExportData { pd with participantInfo := info2 } b = prepareExportData pd b := by
  simp [prepareExportData, hAge, hGender, hDhe]

/-- C10 witness: dropping a name and an email from `participantInfo` leaves
the export unchanged. -/
theorem prepareExportData_noninterference_witness :
    prepareExportData
      { sessionId := "QMUL_2", startTime := "t0", endTime := some "t9"
        participantInfo := [("ageGroup", "25-34"), ("gender", "female"),
          ("digitalHealthExperience", "none")]
        consentData := [("timestamp", "t1")]
        therapyData := ⟨true, some "t2", some "QMUL_2"⟩
        questionnaireData := [("q1", "5")], completed := true }
      ⟨"ua", "en-GB", "mac"⟩
    = prepareExportData
      { sessionId := "QMUL_2", startTime := "t0", endTime := some "t9"
        participantInfo := [("fullName", "Alice Example"), ("ageGroup", "25-34"),
          ("gender", "female"), ("digitalHealthExperience", "none"),
          ("email", "alice.example at example.org")]
        consentData := [("timestamp", "t1")]
        therapyData := ⟨true, some "t2", some "QMUL_2"⟩
        questionnaireData := [("q1", "5")], completed := true }
      ⟨"ua", "en-GB", "mac"⟩ := by
  exact prepareExportData_noninterference
    { sessionId := "QMUL_2", startTime := "t0", endTime := some "t9"
      participantInfo := [("fullName", "Alice Example"), ("ageGroup", "25-34"),
        ("gender", "female"), ("digitalHealthExperience", "none"),
        ("email", "alice.example at example.org")]
      consentData := [("timestamp", "t1")]
      therapyData := ⟨true, some "t2", some "QMUL_2"⟩
      questionnaireData := [("q1", "5")], completed := true }
    [("ageGroup", "25-34"), ("gender", "female"), ("digitalHealthExperience", "none")]
    ⟨"ua", "en-GB", "mac"⟩ (by decide) (by decide) (by decide)

/-! ## C9: `fadeAudio` moves monotonically to `endVolume` and ends exactly
there -/

/-- One unfolding of `fadeRun`. -/
lemma fadeRun_succ (s e step : ℚ) (k : Nat) :
    fadeRun s e step (k + 1) = fadeTick e step (fadeRun s e step k) := rfl

/-- A cleared fade interval no longer changes the state. -/
lemma fadeTick_inactive (e step : ℚ) (st : FadeState) (hA : st.active = false) :
    fadeTick e step st = st := by
  simp [fadeTick, hA]

/-- A tick that reaches or passes `endVolume` clamps to it and clears the
interval. -/
lemma fadeTick_clamp (e step : ℚ) (st : FadeState) (hA : st.active = true)
    (hc : (0 < step ∧ e ≤ st.volume + step) ∨ (step < 0 ∧ st.volume + step ≤ e)) :
    fadeTick e step st = ⟨e, false⟩ := by
  simp [fadeTick, hA, hc]

/-- A tick that stays short of `endVolume` adds exactly `volumeStep`. -/
lemma fadeTick_move (e step : ℚ) (st : FadeState) (hA : st.active = true)
    (hc : ¬ ((0 < step ∧ e ≤ st.volume + step) ∨ (step < 0 ∧ st.volume + step ≤ e))) :
    fadeTick e step st = ⟨st.volume + step, true⟩ := by
  simp [fadeTick, hA, hc]

/-- Invariant of an upward fade (`0 < step`, `s < e`): while the interval is
active the volume is strictly below `e`, and once cleared it is exactly `e`. -/
lemma fadeRun_inv_pos (s e step : ℚ) (hpos : 0 < step) (hse : s < e) (k : Nat) :
    ((fadeRun s e step k).active = true → (fadeRun s e step k).volume < e) ∧
    ((fadeRun s e step k).active = false → (fadeRun s e step k).volume = e) := by
  induction k with
  | zero => exact ⟨fun _ => hse, fun h => nomatch h⟩
  | succ k ih =>
    rcases hA : (fadeRun s e step k).active with _ | _
    · rw [fadeRun_succ, fadeTick_inactive _ _ _ hA]
      exact ⟨fun h => absurd h (by simp [hA]), fun _ => ih.2 hA⟩
    · by_cases hc : (0 < step ∧ e ≤ (fadeRun s e step k).volume + step) ∨
          (step < 0 ∧ (fadeRun s e step k).volume + step ≤ e)
      · rw [fadeRun_succ, fadeTick_clamp _ _ _ hA hc]
        exact ⟨fun h => (nomatch h), fun _ => rfl⟩
      · rw [fadeRun_succ, fadeTick_move _ _ _ hA hc]
        refine ⟨fun _ => ?_, fun h => nomatch h⟩
        rcases not_or.mp hc with ⟨h1, _⟩
        exact lt_of_not_le (not_and.mp h1 hpos)

/-- While the interval is active the volume is `s + k · step`. -/
lemma fadeRun_active_volume (s e step : ℚ) (k : Nat)
    (hA : (fadeRun s e step k).active = true) :
    (fadeRun s e step k).volume = s + k * step := by
  induction k with
  | zero => simp [fadeRun]
  | succ k ih =>
    rcases hA' : (fadeRun s e step k).active with _ | _
    · rw [fadeRun_succ, fadeTick_inactive _ _ _ hA'] at hA
      exact absurd hA (by simp [hA'])
    · by_cases hc : (0 < step ∧ e ≤ (fadeRun s e step k).volume + step) ∨
          (step < 0 ∧ (fadeRun s e step k).volume + step ≤ e)
      · rw [fadeRun_succ, fadeTick_clamp _ _ _ hA' hc] at hA
        exact nomatch hA
      · rw [fadeRun_succ, fadeTick_move _ _ _ hA' hc]
        show (fadeRun s e step k).volume + step = _
        rw [ih hA']
        push_cast
        ring

/-- An upward fade is monotone. -/
lemma fadeRun_mono_pos (s e step : ℚ) (hpos : 0 < step) (hse : s < e) (k : Nat) :
    (fadeRun s e step k).volume ≤ (fadeRun s e step (k + 1)).volume := by
  rcases hA : (fadeRun s e step k).active with _ | _
  · rw [fadeRun_succ, fadeTick_inactive _ _ _ hA]
  · by_cases hc : (0 < step ∧ e ≤ (fadeRun s e step k).volume + step) ∨
        (step < 0 ∧ (fadeRun s e step k).volume + step ≤ e)
    · rw [fadeRun_succ, fadeTick_clamp _ _ _ hA hc]
      exact le_of_lt ((fadeRun_inv_pos s e step hpos hse k).1 hA)
    · rw [fadeRun_succ, fadeTick_move _ _ _ hA hc]
      show _ ≤ (fadeRun s e step k).volume + step
      linarith

/-- An upward fade never passes `endVolume`. -/
lemma fadeRun_le_pos (s e step : ℚ) (hpos : 0 < step) (hse : s < e) (k : Nat) :
    (fadeRun s e step k).volume ≤ e := by
  rcases hA : (fadeRun s e step k).active with _ | _
  · exact le_of_eq ((fadeRun_inv_pos s e step hpos hse k).2 hA)
  · exact le_of_lt ((fadeRun_inv_pos s e step hpos hse k).1 hA)

/-- Each tick of an upward fade moves by exactly `step` or lands on `e`. -/
lemma fadeRun_move_or_end_pos (s e step : ℚ) (hpos : 0 < step) (hse : s < e) (k : Nat) :
    (fadeRun s e step (k + 1)).volume = (fadeRun s e step k).volume + step ∨
    (fadeRun s e step (k + 1)).volume = e := by
  rcases hA : (fadeRun s e step k).active with _ | _
  · right
    rw [fadeRun_succ, fadeTick_inactive _ _ _ hA]
    exact (fadeRun_inv_pos s e step hpos hse k).2 hA
  · by_cases hc : (0 < step ∧ e ≤ (fadeRun s e step k).volume + step) ∨
        (step < 0 ∧ (fadeRun s e step k).volume + step ≤ e)
    · right
      rw [fadeRun_succ, fadeTick_clamp _ _ _ hA hc]
    · left
      rw [fadeRun_succ, fadeTick_move _ _ _ hA hc]

/-- An upward fade terminates, with the volume exactly `endVolume`. -/
lemma fadeRun_terminates_pos (s e step : ℚ) (hpos : 0 < step) (hse : s < e) :
    ∃ K, (fadeRun s e step K).active = false ∧ (fadeRun s e step K).volume = e := by
  have hActive : (fadeRun s e step ⌈(e - s) / step⌉₊).active = false := by
    rcases hA : (fadeRun s e step ⌈(e - s) / step⌉₊).active with _ | _
    · rfl
    · exfalso
      have hvol := fadeRun_active_volume s e step _ hA
      have hlt := (fadeRun_inv_pos s e step hpos hse _).1 hA
      rw [hvol] at hlt
      have h2 : ((⌈(e - s) / step⌉₊ : ℕ) : ℚ) < (e - s) / step := by
        rw [lt_div_iff₀ hpos]
        linarith
      have h3 := Nat.le_ceil ((e - s) / step)
      linarith
  exact ⟨_, hActive, (fadeRun_inv_pos s e step hpos hse _).2 hActive⟩

/-- Negating volumes, target and step commutes with one tick. -/
lemma fadeTick_neg (e step : ℚ) (st : FadeState) :
    fadeTick (-e) (-step) ⟨-st.volume, st.active⟩
      = ⟨-(fadeTick e step st).volume, (fadeTick e step st).active⟩ := by
  rcases hA : st.active with _ | _
  · rw [fadeTick_inactive e step st hA, hA]
    exact fadeTick_inactive _ _ _ rfl
  · have hcond : ((0 < -step ∧ -e ≤ -st.volume + -step) ∨
        (-step < 0 ∧ -st.volume + -step ≤ -e))
        ↔ ((0 < step ∧ e ≤ st.volume + step) ∨ (step < 0 ∧ st.volume + step ≤ e)) := by
      constructor
      · rintro (⟨h1, h2⟩ | ⟨h1, h2⟩)
        · exact Or.inr ⟨by linarith, by linarith⟩
        · exact Or.inl ⟨by linarith, by linarith⟩
      · rintro (⟨h1, h2⟩ | ⟨h1, h2⟩)
        · exact Or.inr ⟨by linarith, by linarith⟩
        · exact Or.inl ⟨by linarith, by linarith⟩
    by_cases hc : (0 < step ∧ e ≤ st.volume + step) ∨ (step < 0 ∧ st.volume + step ≤ e)
    · rw [fadeTick_clamp e step st hA hc,
        fadeTick_clamp (-e) (-step) ⟨-st.volume, true⟩ rfl (hcond.mpr hc)]
    · rw [fadeTick_move e step st hA hc,
        fadeTick_move (-e) (-step) ⟨-st.volume, true⟩ rfl (fun h => hc (hcond.mp h))]
      show (⟨-st.volume + -step, true⟩ : FadeState) = ⟨-(st.volume + step), true⟩
      congr 1
      ring

/-- Negating volumes, target and step commutes with the whole run. -/
lemma fadeRun_neg (s e step : ℚ) (k : Nat) :
    fadeRun (-s) (-e) (-step) k
      = ⟨-(fadeRun s e step k).volume, (fadeRun s e step k).active⟩ := by
  induction k with
  | zero => rfl
  | succ k ih =>
    rw [fadeRun_succ, ih, fadeRun_succ]
    exact fadeTick_neg e step (fadeRun s e step k)

/-- C9: for `endVolume` in `[0, 1]` and a positive duration, `fadeAudio`
does nothing when the starting volume already equals `endVolume`; otherwise
it registers the interval with the fixed computed step, the volume moves
monotonically toward `endVolume` by exactly that step per tick without ever
passing `endVolume`, once the interval is cleared the volume is exactly
`endVolume`, and the fade does terminate with the volume exactly
`endVolume`. -/
theorem fadeAudio_monotone_exact (s e duration : ℚ)
    (_he0 : 0 ≤ e) (_he1 : e ≤ 1) (hd : 0 < duration) :
    (s = e → fadeAudio s e duration = none) ∧
    (s ≠ e → fadeAudio s e duration = some (fadeStep s e duration)) ∧
    (s < e →
      (∀ k, (fadeRun s e (fadeStep s e duration) k).volume
          ≤ (fadeRun s e (fadeStep s e duration) (k + 1)).volume) ∧
      (∀ k, (fadeRun s e (fadeStep s e duration) k).volume ≤ e) ∧
      (∀ k, (fadeRun s e (fadeStep s e duration) (k + 1)).volume
            = (fadeRun s e (fadeStep s e duration) k).volume + fadeStep s e duration ∨
            (fadeRun s e (fadeStep s e duration) (k + 1)).volume = e) ∧
      (∀ k, (fadeRun s e (fadeStep s e duration) k).active = false →
            (fadeRun s e (fadeStep s e duration) k).volume = e) ∧
      (∃ K, (fadeRun s e (fadeStep s e duration) K).active = false ∧
            (fadeRun s e (fadeStep s e duration) K).volume = e)) ∧
    (e < s →
      (∀ k, (fadeRun s e (fadeStep s e duration) (k + 1)).volume
          ≤ (fadeRun s e (fadeStep s e duration) k).volume) ∧
      (∀ k, e ≤ (fadeRun s e (fadeStep s e duration) k).volume) ∧
      (∀ k, (fadeRun s e (fadeStep s e duration) (k + 1)).volume
            = (fadeRun s e (fadeStep s e duration) k).volume + fadeStep s e duration ∨
            (fadeRun s e (fadeStep s e duration) (k + 1)).volume = e) ∧
      (∀ k, (fadeRun s e (fadeStep s e duration) k).active = false →
            (fadeRun s e (fadeStep s e duration) k).volume = e) ∧
      (∃ K, (fadeRun s e (fadeStep s e duration) K).active = false ∧
            (fadeRun s e (fadeStep s e duration) K).volume = e)) := by
  have hden : 0 < duration / 50 := div_pos hd (by norm_num)
  refine ⟨fun hse => by simp [fadeAudio, hse],
    fun hne => by simp [fadeAudio, hne], fun hlt => ?_, fun hgt => ?_⟩
  · have hpos : 0 < fadeStep s e duration := div_pos (by linarith) hden
    exact ⟨fadeRun_mono_pos s e _ hpos hlt,
           fadeRun_le_pos s e _ hpos hlt,
           fadeRun_move_or_end_pos s e _ hpos hlt,
           fun k => (fadeRun_inv_pos s e _ hpos hlt k).2,
           fadeRun_terminates_pos s e _ hpos hlt⟩
  · have hneg : fadeStep s e duration < 0 := div_neg_of_neg_of_pos (by linarith) hden
    have hpos' : 0 < -(fadeStep s e duration) := by linarith
    have hlt' : -s < -e := by linarith
    refine ⟨fun k => ?_, fun k => ?_, fun k => ?_, fun k => ?_, ?_⟩
    · have h := fadeRun_mono_pos (-s) (-e) (-(fadeStep s e duration)) hpos' hlt' k
      simp only [fadeRun_neg] at h
      linarith
    · have h := fadeRun_le_pos (-s) (-e) (-(fadeStep s e duration)) hpos' hlt' k
      simp only [fadeRun_neg] at h
      linarith
    · have h := fadeRun_move_or_end_pos (-s) (-e) (-(fadeStep s e duration)) hpos' hlt' k
      simp only [fadeRun_neg] at h
      rcases h with h | h
      · left; linarith
      · right; linarith
    · intro hA
      have h := (fadeRun_inv_pos (-s) (-e) (-(fadeStep s e duration)) hpos' hlt' k).2
      simp only [fadeRun_neg] at h
      have := h hA
      linarith
    · obtain ⟨K, hKa, hKv⟩ :=
        fadeRun_terminates_pos (-s) (-e) (-(fadeStep s e duration)) hpos' hlt'
      simp only [fadeRun_neg] at hKa hKv
      exact ⟨K, hKa, by linarith⟩

/-- C9 witness: fading from volume 0 to 1 over 100 ms registers the interval
with step 1/2 and terminates exactly at volume 1. -/
theorem fadeAudio_monotone_exact_witness :
    fadeAudio 0 1 100 = some (fadeStep 0 1 100) ∧
    (∃ K, (fadeRun 0 1 (fadeStep 0 1 100) K).active = false ∧
          (fadeRun 0 1 (fadeStep 0 1 100) K).volume = 1) := by
  have h := fadeAudio_monotone_exact 0 1 100 (by norm_num) (by norm_num) (by norm_num)
  exact ⟨h.2.1 (by norm_num), (h.2.2.1 (by norm_num)).2.2.2.2⟩

end EmoHeal
